import Mathlib

/-!
Verification of the shadowboard template generator
(`src/components/TemplateGenerator.tsx`).

The component is a client-side form-to-canvas pipeline.  We embed its
numeric core over `ℚ`:

* the input normalizer (`convertFractionToDecimal`, `updateDimensions`);
* the grid renderer's layout arithmetic (`generateTemplate`): canvas
  sizing, border, interior grid-line positions, dimension labels;
* the page tiler (`generateTiledTemplate`): page counts and row-major
  page numbering;
* the export adapters (`downloadTemplate`, `printTemplate`) and the
  UI-side page-count estimate (`tiledPages`).

JavaScript numbers are modelled as rationals.  `parseFloat` is modelled
by `jsParseFloat : String → Option ℚ` (`none` plays the role of `NaN`);
the JS idioms `parseFloat x || 0` and `parseFloat x || 1` are modelled by
`jsOr0` and `jsOr1`, which also send a parsed `0` to the fallback, since
`0` is falsy in JS.  Drawing side effects are abstracted into result
records listing what would be drawn; the DOM canvas element, which the
component only mounts when both dimensions are positive, is modelled by
`canvasRefCurrent`.
-/

/-- Canonical dimensions in inches (source `interface Dimensions`). -/
structure Dimensions where
  width : ℚ
  height : ℚ
deriving DecidableEq

/-- Raw fraction-mode form fields (source `interface FractionalInput`). -/
structure FractionalInput where
  whole : String
  numerator : String
  denominator : String
deriving DecidableEq

/-- The active input mode (source `type InputMode`). -/
inductive InputMode where
  | decimal
  | fraction
  | metric
deriving DecidableEq

/-- The component's state hooks (source lines 18-25): current canonical
dimensions plus the raw form fields of each input mode. -/
structure FormState where
  dimensions : Dimensions
  inputMode : InputMode
  widthInput : FractionalInput
  heightInput : FractionalInput
  decimalWidth : String
  decimalHeight : String
  metricWidth : String
  metricHeight : String

/-- Initial state of the component's hooks (source lines 18-25). -/
def initialFormState : FormState :=
  { dimensions := ⟨0, 0⟩
    inputMode := InputMode.decimal
    widthInput := ⟨"", "", "16"⟩
    heightInput := ⟨"", "", "16"⟩
    decimalWidth := ""
    decimalHeight := ""
    metricWidth := ""
    metricHeight := "" }

/-- Discrete result of scanning a numeric string: sign, the mantissa
digits read as a natural number, how many of those digits were after the
decimal point, and the decimal exponent. -/
structure ParsedNum where
  neg : Bool
  mantissa : ℕ
  fracLen : ℕ
  exp10 : ℤ
deriving DecidableEq

/-- Digit run read as a natural number, most significant digit first. -/
def digitsVal (l : List Char) : ℕ :=
  l.foldl (fun a c => 10 * a + (c.toNat - 48)) 0

/-- Exponent part of a JS numeric literal (after the `e`): optional sign
then digits; an empty digit run contributes exponent `0`, matching
`parseFloat`'s longest-valid-prefix rule. -/
def jsParseExp (l : List Char) : ℤ :=
  let p :=
    match l with
    | '-' :: r => (true, r)
    | '+' :: r => (false, r)
    | _ => (false, l)
  let ds := p.2.takeWhile Char.isDigit
  if ds.isEmpty then 0
  else if p.1 then -(digitsVal ds : ℤ) else (digitsVal ds : ℤ)

/-- Scanner behind the `parseFloat` model: skip leading whitespace, read
an optional sign, integer digits, an optional fraction part and an
optional exponent, ignoring any trailing garbage.  Returns `none` (JS
`NaN`) when no digits occur, as for `parseFloat("")`. -/
def jsParseNum (s : String) : Option ParsedNum :=
  let l := s.toList.dropWhile fun c => c == ' ' || c == '\t' || c == '\n' || c == '\r'
  let p :=
    match l with
    | '-' :: r => (true, r)
    | '+' :: r => (false, r)
    | _ => (false, l)
  let ip := p.2.takeWhile Char.isDigit
  let l2 := p.2.dropWhile Char.isDigit
  let q :=
    match l2 with
    | '.' :: r => (r.takeWhile Char.isDigit, r.dropWhile Char.isDigit)
    | _ => ([], l2)
  if ip.isEmpty && q.1.isEmpty then none
  else
    let e : ℤ :=
      match q.2 with
      | 'e' :: r => jsParseExp r
      | 'E' :: r => jsParseExp r
      | _ => 0
    some ⟨p.1, digitsVal (ip ++ q.1), q.1.length, e⟩

/-- Exact rational value of a scanned numeric literal. -/
def parsedNumValue (p : ParsedNum) : ℚ :=
  (if p.neg then -1 else 1) * ((p.mantissa : ℚ) / 10 ^ p.fracLen) * (10 : ℚ) ^ p.exp10

/-- Model of JavaScript `parseFloat` over exact rationals; `none` stands
for `NaN` (no parsable numeric prefix).  `Infinity` literals, which never
arise here, are not modelled. -/
def jsParseFloat (s : String) : Option ℚ :=
  (jsParseNum s).map parsedNumValue

/-- Model of the JS idiom `parseFloat(x) || 0` (source lines 29-30, 41-42,
49-50): `NaN` falls back to `0`; a parsed `0` is falsy but the fallback is
also `0`, so `Option.getD` is exact. -/
def jsOr0 (o : Option ℚ) : ℚ :=
  o.getD 0

/-- Model of the JS idiom `parseFloat(x) || 1` (source line 31): both
`NaN` and a parsed `0` (falsy in JS) fall back to `1`. -/
def jsOr1 (o : Option ℚ) : ℚ :=
  match o with
  | none => 1
  | some v => if v = 0 then 1 else v

/-- The divisor actually used by the fraction conversion:
`const den = parseFloat(input.denominator) || 1` (source line 31). -/
def fractionDenominator (input : FractionalInput) : ℚ :=
  jsOr1 (jsParseFloat input.denominator)

/-- Source `convertFractionToDecimal` (lines 28-33):
`whole + numerator / denominator` with `|| 0` / `|| 1` fallbacks. -/
def convertFractionToDecimal (input : FractionalInput) : ℚ :=
  let whole := jsOr0 (jsParseFloat input.whole)
  let num := jsOr0 (jsParseFloat input.numerator)
  whole + num / fractionDenominator input

/-- Source `updateDimensions` (lines 35-55): normalize the active input
mode's raw fields to canonical inches and store them via `setDimensions`.
Modelled as the pure function from the component state to the new
`dimensions` value. -/
def updateDimensions (s : FormState) : Dimensions :=
  match s.inputMode with
  | InputMode.decimal =>
      ⟨jsOr0 (jsParseFloat s.decimalWidth), jsOr0 (jsParseFloat s.decimalHeight)⟩
  | InputMode.fraction =>
      ⟨convertFractionToDecimal s.widthInput, convertFractionToDecimal s.heightInput⟩
  | InputMode.metric =>
      ⟨jsOr0 (jsParseFloat s.metricWidth) / 25.4, jsOr0 (jsParseFloat s.metricHeight) / 25.4⟩

/-- Truncated decimal digits of the proper fraction `r / d`, fuel-bounded:
each step emits `⌊10r/d⌋` and continues with `10r mod d`, stopping at
remainder `0`. -/
def fracDigitsN : ℕ → ℕ → ℕ → String
  | 0, _, _ => ""
  | fuel + 1, r, d =>
    if r = 0 then ""
    else toString (10 * r / d) ++ fracDigitsN fuel (10 * r % d) d

/-- Model of the default JS number-to-string conversion used by template
literals: integers print without a decimal point, other values print
their decimal expansion.  Printing is cut off after 17 digits (the
precision of double shortest-round-trip output); it is exact for every
terminating expansion arising from the inputs in scope. -/
def jsNumberToString (q : ℚ) : String :=
  let sign := if q < 0 then "-" else ""
  let n := q.num.natAbs
  let d := q.den
  sign ++ toString (n / d) ++
    (if d = 1 then "" else "." ++ fracDigitsN 17 (n % d) d)

/-- Model of `Number.prototype.toFixed(2)` (the 2-decimal display format,
source lines 146, 150, 645): round to the nearest hundredth (ties up)
and always print two fraction digits. -/
def toFixed2 (q : ℚ) : String :=
  let sign := if q < 0 then "-" else ""
  let n := q.num.natAbs
  let d := q.den
  let c := (200 * n + d) / (2 * d)
  sign ++ toString (c / 100) ++ "." ++
    (if c % 100 < 10 then "0" else "") ++ toString (c % 100)

/-- Fixed raster resolution: 72 pixels per inch (source line 69). -/
def dpi : ℚ := 72

/-- Fixed outer canvas margin in pixels, reserved for rulers and labels
(source line 72). -/
def margin : ℚ := 72

/-- Content rectangle width in pixels (source line 70). -/
def pixelWidth (d : Dimensions) : ℚ := d.width * dpi

/-- Content rectangle height in pixels (source line 71). -/
def pixelHeight (d : Dimensions) : ℚ := d.height * dpi

/-- Canvas surface width in pixels (source line 74). -/
def canvasWidth (d : Dimensions) : ℚ := pixelWidth d + margin * 2

/-- Canvas surface height in pixels (source line 75). -/
def canvasHeight (d : Dimensions) : ℚ := pixelHeight d + margin * 2

/-- Integer inch offsets at which the interior grid loops draw a line:
the JS loop `for (let i = 1; i < extent; i++)` (source lines 91, 100).
`List.range ⌈extent⌉.toNat` is an upper bound on the iterations; the
filter keeps exactly the indices the loop visits. -/
def gridLineOffsets (extent : ℚ) : List ℕ :=
  (List.range (⌈extent⌉).toNat).filter fun i =>
    decide (1 ≤ i) && decide ((i : ℚ) < extent)

/-- Pixel x-positions of the vertical interior grid lines
(source lines 90-97: `const x = margin + (i * dpi)`). -/
def vGridLineXs (d : Dimensions) : List ℚ :=
  (gridLineOffsets d.width).map fun (i : ℕ) => margin + (i : ℚ) * dpi

/-- Pixel y-positions of the horizontal interior grid lines
(source lines 99-106: `const y = margin + (i * dpi)`). -/
def hGridLineYs (d : Dimensions) : List ℚ :=
  (gridLineOffsets d.height).map fun (i : ℕ) => margin + (i : ℚ) * dpi

/-- The DOM canvas element, abstracted: only its presence matters. -/
inductive Canvas where
  | mk
deriving DecidableEq

/-- Layout facts of one grid render: surface size, border rectangle,
interior grid-line positions and the two dimension label strings.  The
remaining draw calls (fills, rulers, branding) carry no further numeric
content relevant here. -/
structure RenderResult where
  canvasWidth : ℚ
  canvasHeight : ℚ
  borderX : ℚ
  borderY : ℚ
  borderW : ℚ
  borderH : ℚ
  vLineXs : List ℚ
  hLineYs : List ℚ
  heightLabel : String
  widthLabel : String
deriving DecidableEq

/-- The layout drawn by `generateTemplate` for positive dimensions
(source lines 69-150). -/
def renderResult (d : Dimensions) : RenderResult :=
  { canvasWidth := canvasWidth d
    canvasHeight := canvasHeight d
    borderX := margin
    borderY := margin
    borderW := pixelWidth d
    borderH := pixelHeight d
    vLineXs := vGridLineXs d
    hLineYs := hGridLineYs d
    heightLabel := toFixed2 d.height ++ "\""
    widthLabel := toFixed2 d.width ++ "\"" }

/-- Source `generateTemplate` (lines 61-183): abort when the canvas ref
is empty or either dimension is nonpositive (guard at line 63),
otherwise draw the grid layout. -/
def generateTemplate (canvas : Option Canvas) (d : Dimensions) : Option RenderResult :=
  if canvas.isNone ∨ d.width ≤ 0 ∨ d.height ≤ 0 then none
  else some (renderResult d)

/-- The conditionally mounted preview canvas (source lines 708-718): the
`<canvas>` element exists iff both dimensions are positive, so
`canvasRef.current` is `none` otherwise. -/
def canvasRefCurrent (d : Dimensions) : Option Canvas :=
  if 0 < d.width ∧ 0 < d.height then some Canvas.mk else none

/-- Source `downloadTemplate` (lines 191-199): abort when the canvas ref
is empty, otherwise trigger a download whose suggested filename embeds
the raw numeric dimension values (template literal at line 196). -/
def downloadTemplate (canvas : Option Canvas) (d : Dimensions) : Option String :=
  match canvas with
  | none => none
  | some _ =>
      some ("shadowboard-template-" ++ jsNumberToString d.width ++ "x" ++
        jsNumberToString d.height ++ ".png")

/-- Source `printTemplate` (lines 201-228): abort when the canvas ref is
empty, otherwise open a single-page print view of the full image. -/
def printTemplate (canvas : Option Canvas) : Option Unit :=
  match canvas with
  | none => none
  | some _ => some ()

/-- US Letter page width in inches (source line 235). -/
def pageWidth : ℚ := 8.5

/-- US Letter page height in inches (source line 236). -/
def pageHeight : ℚ := 11

/-- Fixed print margin in inches on all four page sides (source line 237). -/
def pageMargin : ℚ := 0.5

/-- Printable page width (source line 238). -/
def printableWidth : ℚ := pageWidth - pageMargin * 2

/-- Printable page height (source line 239). -/
def printableHeight : ℚ := pageHeight - pageMargin * 2

/-- The 1-inch render margin included in the tiled extent (source line 242). -/
def templateMargin : ℚ := 1

/-- Total template width for tiling, render margins included (source line 245). -/
def totalWidth (d : Dimensions) : ℚ := d.width + templateMargin * 2

/-- Total template height for tiling, render margins included (source line 246). -/
def totalHeight (d : Dimensions) : ℚ := d.height + templateMargin * 2

/-- Horizontal page count of the tiled print (source line 249). -/
def pagesX (d : Dimensions) : ℤ := ⌈totalWidth d / printableWidth⌉

/-- Vertical page count of the tiled print (source line 250). -/
def pagesY (d : Dimensions) : ℤ := ⌈totalHeight d / printableHeight⌉

/-- One page of the tiled print: its 1-based page number, grid position,
and the source crop offset in inches (source lines 356-396). -/
structure TiledPage where
  pageNum : ℤ
  row : ℕ
  col : ℕ
  sectionX : ℚ
  sectionY : ℚ
deriving DecidableEq

/-- Source `generateTiledTemplate` (lines 230-407): abort when the
canvas ref is empty or either dimension is nonpositive (guard at line
232), otherwise emit one page per `(row, col)` in row-major order with
`pageNum = row * pagesX + col + 1` (lines 356-358) cropped at
`(col * printableWidth, row * printableHeight)` (lines 374-375). -/
def generateTiledTemplate (canvas : Option Canvas) (d : Dimensions) :
    Option (List TiledPage) :=
  if canvas.isNone ∨ d.width ≤ 0 ∨ d.height ≤ 0 then none
  else
    some ((List.range (pagesY d).toNat).flatMap fun (row : ℕ) =>
      (List.range (pagesX d).toNat).map fun (col : ℕ) =>
        { pageNum := (row : ℤ) * pagesX d + (col : ℤ) + 1
          row := row
          col := col
          sectionX := (col : ℚ) * printableWidth
          sectionY := (row : ℚ) * printableHeight })

/-- Source line 558: whether the template exceeds a single page. -/
def needsTiling (d : Dimensions) : Bool :=
  decide (6.5 < d.width) || decide (8.5 < d.height)

/-- Source lines 559-560: the tiled page count displayed in the UI.
Note the `9.5` height divisor, unlike the generator's
`printableHeight = 10`. -/
def tiledPages (d : Dimensions) : ℤ :=
  if needsTiling d then ⌈(d.width + 2) / (7.5 : ℚ)⌉ * ⌈(d.height + 2) / (9.5 : ℚ)⌉
  else 1

lemma jsOr1_ne_zero (o : Option ℚ) : jsOr1 o ≠ 0 := by
  unfold jsOr1
  match o with
  | none => exact one_ne_zero
  | some v =>
    by_cases hv : v = 0
    · simp [hv]
    · simp [hv]

lemma jsOr1_eq_getD (o : Option ℚ) (h : o ≠ some 0) : jsOr1 o = o.getD 1 := by
  unfold jsOr1
  match o with
  | none => rfl
  | some v =>
    have hv : v ≠ 0 := fun hv0 => h (by rw [hv0])
    simp [hv]

lemma jsParseFloat_eq_nat (s : String) (n : ℕ)
    (h : jsParseNum s = some ⟨false, n, 0, 0⟩) : jsParseFloat s = some (n : ℚ) := by
  rw [jsParseFloat, h]
  simp [parsedNumValue]

lemma jsParseFloat_two : jsParseFloat "2" = some 2 := by
  have := jsParseFloat_eq_nat "2" 2 rfl
  rwa [Nat.cast_ofNat] at this

lemma jsParseFloat_three : jsParseFloat "3" = some 3 := by
  have := jsParseFloat_eq_nat "3" 3 rfl
  rwa [Nat.cast_ofNat] at this

lemma jsParseFloat_four : jsParseFloat "4" = some 4 := by
  have := jsParseFloat_eq_nat "4" 4 rfl
  rwa [Nat.cast_ofNat] at this

lemma jsParseFloat_zero : jsParseFloat "0" = some 0 := by
  have := jsParseFloat_eq_nat "0" 0 rfl
  rwa [Nat.cast_zero] at this

lemma jsParseFloat_254 : jsParseFloat "254" = some 254 := by
  have := jsParseFloat_eq_nat "254" 254 rfl
  rwa [Nat.cast_ofNat] at this

lemma jsParseFloat_127 : jsParseFloat "127" = some 127 := by
  have := jsParseFloat_eq_nat "127" 127 rfl
  rwa [Nat.cast_ofNat] at this

/-- C9: for every input mode and every assignment of raw field strings,
normalization is a deterministic function of the mode and the raw
fields: two component states that agree on the mode and all six raw
inputs (but may hold different current `dimensions`) normalize to the
same canonical dimensions. -/
theorem normalization_deterministic (s₁ s₂ : FormState)
    (hmode : s₁.inputMode = s₂.inputMode)
    (hwi : s₁.widthInput = s₂.widthInput)
    (hhi : s₁.heightInput = s₂.heightInput)
    (hdw : s₁.decimalWidth = s₂.decimalWidth)
    (hdh : s₁.decimalHeight = s₂.decimalHeight)
    (hmw : s₁.metricWidth = s₂.metricWidth)
    (hmh : s₁.metricHeight = s₂.metricHeight) :
    updateDimensions s₁ = updateDimensions s₂ := by
  cases s₁
  cases s₂
  dsimp at hmode hwi hhi hdw hdh hmw hmh
  subst hmode hwi hhi hdw hdh hmw hmh
  rfl

/-- C9 witness: two states that differ only in the stored `dimensions`
normalize identically. -/
theorem normalization_deterministic_witness :
    updateDimensions { initialFormState with dimensions := ⟨1, 1⟩ } =
      updateDimensions { initialFormState with dimensions := ⟨42, 7⟩ } :=
  normalization_deterministic _ _ rfl rfl rfl rfl rfl rfl rfl

/-- C10: the divisor used by the fraction conversion is never zero: a
denominator field that fails to parse, or parses to `0` (falsy in JS),
is replaced by `1` before dividing, and `convertFractionToDecimal`
divides exactly by this nonzero value. -/
theorem fraction_denominator_nonzero (input : FractionalInput) :
    fractionDenominator input ≠ 0 ∧
    fractionDenominator ⟨"", "", "0"⟩ = 1 ∧
    fractionDenominator ⟨"", "", "abc"⟩ = 1 ∧
    convertFractionToDecimal input =
      jsOr0 (jsParseFloat input.whole) +
        jsOr0 (jsParseFloat input.numerator) / fractionDenominator input := by
  refine ⟨jsOr1_ne_zero _, ?_, ?_, rfl⟩
  · rw [fractionDenominator, jsParseFloat_zero]
    simp [jsOr1]
  · rw [fractionDenominator, show jsParseFloat "abc" = none from rfl]
    rfl

/-- C4: in metric mode, normalization divides each parsed millimeter
value by `25.4` (an unparsable field contributing `0`); in particular
raw inputs `"254"` and `"127"` normalize to exactly `(10, 5)` inches. -/
theorem metric_normalization (s : FormState) (h : s.inputMode = InputMode.metric) :
    updateDimensions s =
      ⟨jsOr0 (jsParseFloat s.metricWidth) / 25.4,
       jsOr0 (jsParseFloat s.metricHeight) / 25.4⟩ ∧
    updateDimensions { initialFormState with
        inputMode := InputMode.metric, metricWidth := "254", metricHeight := "127" } =
      ⟨10, 5⟩ := by
  constructor
  · unfold updateDimensions
    rw [h]
  · show updateDimensions { initialFormState with
        inputMode := InputMode.metric, metricWidth := "254", metricHeight := "127" } = _
    unfold updateDimensions
    show Dimensions.mk (jsOr0 (jsParseFloat "254") / 25.4) (jsOr0 (jsParseFloat "127") / 25.4) = _
    rw [jsParseFloat_254, jsParseFloat_127]
    show Dimensions.mk ((254 : ℚ) / 25.4) ((127 : ℚ) / 25.4) = _
    norm_num

/-- C4 witness: the metric-mode theorem evaluated at the state holding
raw millimeter inputs `"254"` and `"127"`. -/
theorem metric_normalization_witness :
    updateDimensions { initialFormState with
        inputMode := InputMode.metric, metricWidth := "254", metricHeight := "127" } =
      ⟨jsOr0 (jsParseFloat "254") / 25.4, jsOr0 (jsParseFloat "127") / 25.4⟩ ∧
    updateDimensions { initialFormState with
        inputMode := InputMode.metric, metricWidth := "254", metricHeight := "127" } =
      ⟨10, 5⟩ :=
  metric_normalization _ rfl

/-- C3: in fraction mode, normalization returns
`whole + numerator / denominator` where a field that does not parse is
taken as `0` (`1` for the denominator); stated for every state whose
denominator fields do not parse to exactly `0` (a parsed `0` divisor is
also replaced by `1`, see the C10 theorem — under JS float semantics the
claim's formula would divide by zero there, which has no rational
counterpart).  In particular the fields `whole "2"`, `numerator "3"`,
`denominator "4"` convert to `2.75`. -/
theorem fraction_normalization (s : FormState) (h : s.inputMode = InputMode.fraction)
    (hdw : jsParseFloat s.widthInput.denominator ≠ some 0)
    (hdh : jsParseFloat s.heightInput.denominator ≠ some 0) :
    updateDimensions s =
      ⟨(jsParseFloat s.widthInput.whole).getD 0 +
         (jsParseFloat s.widthInput.numerator).getD 0 /
           (jsParseFloat s.widthInput.denominator).getD 1,
       (jsParseFloat s.heightInput.whole).getD 0 +
         (jsParseFloat s.heightInput.numerator).getD 0 /
           (jsParseFloat s.heightInput.denominator).getD 1⟩ ∧
    convertFractionToDecimal ⟨"2", "3", "4"⟩ = 2.75 := by
  constructor
  · unfold updateDimensions
    rw [h]
    unfold convertFractionToDecimal fractionDenominator jsOr0
    rw [jsOr1_eq_getD _ hdw, jsOr1_eq_getD _ hdh]
  · unfold convertFractionToDecimal fractionDenominator
    rw [jsParseFloat_two, jsParseFloat_three, jsParseFloat_four]
    show (2 : ℚ) + 3 / jsOr1 (some 4) = 2.75
    rw [jsOr1_eq_getD _ (by simp)]
    norm_num

/-- C3 witness: the fraction-mode theorem evaluated at a state holding
width fields `2 3/4` and height fields `1 1/2`. -/
theorem fraction_normalization_witness :
    updateDimensions { initialFormState with
        inputMode := InputMode.fraction,
        widthInput := ⟨"2", "3", "4"⟩, heightInput := ⟨"1", "1", "2"⟩ } =
      ⟨(jsParseFloat "2").getD 0 + (jsParseFloat "3").getD 0 / (jsParseFloat "4").getD 1,
       (jsParseFloat "1").getD 0 + (jsParseFloat "1").getD 0 / (jsParseFloat "2").getD 1⟩ ∧
    convertFractionToDecimal ⟨"2", "3", "4"⟩ = 2.75 :=
  fraction_normalization _ rfl
    (by rw [jsParseFloat_four]; simp)
    (by rw [jsParseFloat_two]; simp)

lemma mem_gridLineOffsets (extent : ℚ) (i : ℕ) :
    i ∈ gridLineOffsets extent ↔ 1 ≤ i ∧ (i : ℚ) < extent := by
  unfold gridLineOffsets
  simp only [List.mem_filter, List.mem_range, Bool.and_eq_true, decide_eq_true_eq]
  constructor
  · rintro ⟨-, h1, h2⟩
    exact ⟨h1, h2⟩
  · rintro ⟨h1, h2⟩
    refine ⟨?_, h1, h2⟩
    have h3 : (i : ℤ) < ⌈extent⌉ := Int.lt_ceil.mpr (by exact_mod_cast h2)
    omega

lemma mem_vGridLineXs (d : Dimensions) (x : ℚ) :
    x ∈ vGridLineXs d ↔ ∃ i : ℕ, 1 ≤ i ∧ (i : ℚ) < d.width ∧ x = margin + i * dpi := by
  unfold vGridLineXs
  simp only [List.mem_map, mem_gridLineOffsets]
  constructor
  · rintro ⟨i, ⟨h1, h2⟩, he⟩
    exact ⟨i, h1, h2, he.symm⟩
  · rintro ⟨i, h1, h2, he⟩
    exact ⟨i, ⟨h1, h2⟩, he.symm⟩

lemma mem_hGridLineYs (d : Dimensions) (y : ℚ) :
    y ∈ hGridLineYs d ↔ ∃ i : ℕ, 1 ≤ i ∧ (i : ℚ) < d.height ∧ y = margin + i * dpi := by
  unfold hGridLineYs
  simp only [List.mem_map, mem_gridLineOffsets]
  constructor
  · rintro ⟨i, ⟨h1, h2⟩, he⟩
    exact ⟨i, h1, h2, he.symm⟩
  · rintro ⟨i, h1, h2, he⟩
    exact ⟨i, ⟨h1, h2⟩, he.symm⟩

lemma gridLine_offset_inj {a b : ℚ} (h : margin + a * dpi = margin + b * dpi) : a = b := by
  have hdpi : (dpi : ℚ) ≠ 0 := by norm_num [dpi]
  have := add_left_cancel h
  exact mul_right_cancel₀ hdpi this

/-- C5: for positive dimensions the render surface measures exactly
`(width * 72 + 144, height * 72 + 144)` pixels — 72 pixels per inch plus
a 72-pixel margin on each side; dimensions `(5, 3)` give `(504, 360)`. -/
theorem surface_sizing (d : Dimensions) (hw : 0 < d.width) (hh : 0 < d.height) :
    (∀ c : Canvas, generateTemplate (some c) d = some (renderResult d)) ∧
    (renderResult d).canvasWidth = d.width * 72 + 144 ∧
    (renderResult d).canvasHeight = d.height * 72 + 144 ∧
    (renderResult ⟨5, 3⟩).canvasWidth = 504 ∧
    (renderResult ⟨5, 3⟩).canvasHeight = 360 := by
  refine ⟨?_, ?_, ?_, ?_, ?_⟩
  · intro c
    have hng : ¬((some c).isNone = true ∨ d.width ≤ 0 ∨ d.height ≤ 0) := by
      push_neg
      exact ⟨by simp, hw, hh⟩
    rw [generateTemplate, if_neg hng]
  · show canvasWidth d = _
    unfold canvasWidth pixelWidth dpi margin
    ring
  · show canvasHeight d = _
    unfold canvasHeight pixelHeight dpi margin
    ring
  · show canvasWidth ⟨5, 3⟩ = _
    unfold canvasWidth pixelWidth dpi margin
    norm_num
  · show canvasHeight ⟨5, 3⟩ = _
    unfold canvasHeight pixelHeight dpi margin
    norm_num

/-- C5 witness: the surface-sizing theorem evaluated at dimensions
`(5, 3)`. -/
theorem surface_sizing_witness :
    (∀ c : Canvas, generateTemplate (some c) ⟨5, 3⟩ = some (renderResult ⟨5, 3⟩)) ∧
    (renderResult ⟨5, 3⟩).canvasWidth = (5 : ℚ) * 72 + 144 ∧
    (renderResult ⟨5, 3⟩).canvasHeight = (3 : ℚ) * 72 + 144 ∧
    (renderResult ⟨5, 3⟩).canvasWidth = 504 ∧
    (renderResult ⟨5, 3⟩).canvasHeight = 360 :=
  surface_sizing ⟨5, 3⟩ (by decide) (by decide)

/-- C6: for positive dimensions the interior grid lines are drawn at
exactly the integer inch offsets `i` with `1 ≤ i` and `i < width`
(vertical) resp. `i < height` (horizontal) — strictly inside the border,
whose lines at offsets `0` and `width` / `height` are not among them —
so for a non-integer extent nothing is drawn in the fractional remainder
past the last interior line: width `5.5` draws vertical lines at offsets
`1..5` while width `5` stops at `4`. -/
theorem interior_grid_lines (d : Dimensions) (hw : 0 < d.width) (hh : 0 < d.height) :
    margin = 72 ∧ dpi = 72 ∧
    (∀ x : ℚ, x ∈ (renderResult d).vLineXs ↔
      ∃ i : ℕ, 1 ≤ i ∧ (i : ℚ) < d.width ∧ x = margin + i * dpi) ∧
    (∀ y : ℚ, y ∈ (renderResult d).hLineYs ↔
      ∃ i : ℕ, 1 ≤ i ∧ (i : ℚ) < d.height ∧ y = margin + i * dpi) ∧
    margin + 0 * dpi ∉ (renderResult d).vLineXs ∧
    margin + d.width * dpi ∉ (renderResult d).vLineXs ∧
    margin + 0 * dpi ∉ (renderResult d).hLineYs ∧
    margin + d.height * dpi ∉ (renderResult d).hLineYs ∧
    margin + 5 * dpi ∈ (renderResult ⟨5.5, 3⟩).vLineXs ∧
    margin + 5 * dpi ∉ (renderResult ⟨5, 3⟩).vLineXs := by
  have hv : ∀ x : ℚ, x ∈ (renderResult d).vLineXs ↔
      ∃ i : ℕ, 1 ≤ i ∧ (i : ℚ) < d.width ∧ x = margin + i * dpi := fun x =>
    mem_vGridLineXs d x
  have hy : ∀ y : ℚ, y ∈ (renderResult d).hLineYs ↔
      ∃ i : ℕ, 1 ≤ i ∧ (i : ℚ) < d.height ∧ y = margin + i * dpi := fun y =>
    mem_hGridLineYs d y
  refine ⟨rfl, rfl, hv, hy, ?_, ?_, ?_, ?_, ?_, ?_⟩
  · intro hmem
    obtain ⟨i, h1, -, he⟩ := (hv _).mp hmem
    have : (0 : ℚ) = (i : ℚ) := gridLine_offset_inj he
    have : (1 : ℚ) ≤ 0 := le_trans (by exact_mod_cast h1) this.symm.le
    linarith
  · intro hmem
    obtain ⟨i, -, h2, he⟩ := (hv _).mp hmem
    have : d.width = (i : ℚ) := gridLine_offset_inj he
    rw [this] at h2
    exact lt_irrefl _ h2
  · intro hmem
    obtain ⟨i, h1, -, he⟩ := (hy _).mp hmem
    have : (0 : ℚ) = (i : ℚ) := gridLine_offset_inj he
    have : (1 : ℚ) ≤ 0 := le_trans (by exact_mod_cast h1) this.symm.le
    linarith
  · intro hmem
    obtain ⟨i, -, h2, he⟩ := (hy _).mp hmem
    have : d.height = (i : ℚ) := gridLine_offset_inj he
    rw [this] at h2
    exact lt_irrefl _ h2
  · exact (mem_vGridLineXs ⟨5.5, 3⟩ _).mpr ⟨5, by norm_num, by norm_num, by norm_num⟩
  · intro hmem
    obtain ⟨i, -, h2, he⟩ := (mem_vGridLineXs ⟨5, 3⟩ _).mp hmem
    have h5 : (5 : ℚ) = (i : ℚ) := gridLine_offset_inj he
    rw [← h5] at h2
    exact lt_irrefl _ h2

/-- C6 witness: the grid-line theorem evaluated at dimensions `(5, 3)`. -/
theorem interior_grid_lines_witness :
    margin = 72 ∧ dpi = 72 ∧
    (∀ x : ℚ, x ∈ (renderResult ⟨5, 3⟩).vLineXs ↔
      ∃ i : ℕ, 1 ≤ i ∧ (i : ℚ) < (5 : ℚ) ∧ x = margin + i * dpi) ∧
    (∀ y : ℚ, y ∈ (renderResult ⟨5, 3⟩).hLineYs ↔
      ∃ i : ℕ, 1 ≤ i ∧ (i : ℚ) < (3 : ℚ) ∧ y = margin + i * dpi) ∧
    margin + 0 * dpi ∉ (renderResult ⟨5, 3⟩).vLineXs ∧
    margin + (5 : ℚ) * dpi ∉ (renderResult ⟨5, 3⟩).vLineXs ∧
    margin + 0 * dpi ∉ (renderResult ⟨5, 3⟩).hLineYs ∧
    margin + (3 : ℚ) * dpi ∉ (renderResult ⟨5, 3⟩).hLineYs ∧
    margin + 5 * dpi ∈ (renderResult ⟨5.5, 3⟩).vLineXs ∧
    margin + 5 * dpi ∉ (renderResult ⟨5, 3⟩).vLineXs :=
  interior_grid_lines ⟨5, 3⟩ (by decide) (by decide)

lemma pagesX_eq (d : Dimensions) : pagesX d = ⌈(d.width + 2) / (7.5 : ℚ)⌉ := by
  unfold pagesX
  congr 1
  norm_num [totalWidth, templateMargin, printableWidth, pageWidth, pageMargin]

lemma pagesY_eq (d : Dimensions) : pagesY d = ⌈(d.height + 2) / (10 : ℚ)⌉ := by
  unfold pagesY
  congr 1
  norm_num [totalHeight, templateMargin, printableHeight, pageHeight, pageMargin]

lemma ceil_12_div_75 : ⌈((10 : ℚ) + 2) / 7.5⌉ = 2 := by
  rw [Int.ceil_eq_iff]
  norm_num

lemma ceil_12_div_10 : ⌈((10 : ℚ) + 2) / 10⌉ = 2 := by
  rw [Int.ceil_eq_iff]
  norm_num

lemma ceil_10_div_95 : ⌈((8 : ℚ) + 2) / 9.5⌉ = 2 := by
  rw [Int.ceil_eq_iff]
  norm_num

lemma ceil_10_div_10 : ⌈((8 : ℚ) + 2) / 10⌉ = 1 := by
  rw [Int.ceil_eq_iff]
  norm_num

lemma generateTiledTemplate_pos (c : Canvas) (d : Dimensions)
    (hw : 0 < d.width) (hh : 0 < d.height) :
    generateTiledTemplate (some c) d =
      some ((List.range (pagesY d).toNat).flatMap fun (row : ℕ) =>
        (List.range (pagesX d).toNat).map fun (col : ℕ) =>
          ⟨(row : ℤ) * pagesX d + (col : ℤ) + 1, row, col,
            (col : ℚ) * printableWidth, (row : ℚ) * printableHeight⟩) := by
  unfold generateTiledTemplate
  rw [if_neg]
  push_neg
  exact ⟨by simp, hw, hh⟩

/-- C1: for positive dimensions the tiled print partitions a total
extent of `(width + 2, height + 2)` inches into `7.5 × 10`-inch
printable pages, `pagesX = ⌈(width+2)/7.5⌉` columns and
`pagesY = ⌈(height+2)/10⌉` rows; the page generated at grid position
`(row, col)` carries page number `row * pagesX + col + 1` (row-major,
1-based), and dimensions `(10, 10)` yield `pagesX = pagesY = 2` with
pages numbered `1..4`. -/
theorem tiled_partition (d : Dimensions) (hw : 0 < d.width) (hh : 0 < d.height) :
    totalWidth d = d.width + 2 ∧ totalHeight d = d.height + 2 ∧
    printableWidth = 7.5 ∧ printableHeight = 10 ∧
    pagesX d = ⌈(d.width + 2) / (7.5 : ℚ)⌉ ∧
    pagesY d = ⌈(d.height + 2) / (10 : ℚ)⌉ ∧
    (∀ row col : ℕ, row < (pagesY d).toNat → col < (pagesX d).toNat →
      (⟨(row : ℤ) * pagesX d + (col : ℤ) + 1, row, col,
        (col : ℚ) * printableWidth, (row : ℚ) * printableHeight⟩ : TiledPage) ∈
          (generateTiledTemplate (some Canvas.mk) d).getD []) ∧
    (∀ p ∈ (generateTiledTemplate (some Canvas.mk) d).getD [],
      p.pageNum = (p.row : ℤ) * pagesX d + (p.col : ℤ) + 1 ∧
        p.row < (pagesY d).toNat ∧ p.col < (pagesX d).toNat) ∧
    pagesX ⟨10, 10⟩ = 2 ∧ pagesY ⟨10, 10⟩ = 2 ∧
    ((generateTiledTemplate (some Canvas.mk) ⟨10, 10⟩).getD []).map TiledPage.pageNum =
      [1, 2, 3, 4] := by
  have hgen := generateTiledTemplate_pos Canvas.mk d hw hh
  have hX : pagesX ⟨10, 10⟩ = 2 := by
    rw [pagesX_eq]
    exact ceil_12_div_75
  have hY : pagesY ⟨10, 10⟩ = 2 := by
    rw [pagesY_eq]
    exact ceil_12_div_10
  refine ⟨by norm_num [totalWidth, templateMargin],
    by norm_num [totalHeight, templateMargin],
    by norm_num [printableWidth, pageWidth, pageMargin],
    by norm_num [printableHeight, pageHeight, pageMargin],
    pagesX_eq d, pagesY_eq d, ?_, ?_, hX, hY, ?_⟩
  · intro row col hrow hcol
    rw [hgen]
    simp only [Option.getD_some, List.mem_flatMap, List.mem_map, List.mem_range]
    exact ⟨row, hrow, col, hcol, rfl⟩
  · intro p hp
    rw [hgen] at hp
    simp only [Option.getD_some, List.mem_flatMap, List.mem_map, List.mem_range] at hp
    obtain ⟨row, hrow, col, hcol, rfl⟩ := hp
    exact ⟨rfl, hrow, hcol⟩
  · rw [generateTiledTemplate_pos Canvas.mk ⟨10, 10⟩ (by decide) (by decide), hX, hY]
    decide

/-- C1 witness: the tiling theorem evaluated at dimensions `(10, 10)`. -/
theorem tiled_partition_witness :
    totalWidth ⟨10, 10⟩ = (10 : ℚ) + 2 ∧ totalHeight ⟨10, 10⟩ = (10 : ℚ) + 2 ∧
    printableWidth = 7.5 ∧ printableHeight = 10 ∧
    pagesX ⟨10, 10⟩ = ⌈((10 : ℚ) + 2) / (7.5 : ℚ)⌉ ∧
    pagesY ⟨10, 10⟩ = ⌈((10 : ℚ) + 2) / (10 : ℚ)⌉ ∧
    (∀ row col : ℕ,
      row < (pagesY ⟨10, 10⟩).toNat → col < (pagesX ⟨10, 10⟩).toNat →
      (⟨(row : ℤ) * pagesX ⟨10, 10⟩ + (col : ℤ) + 1, row, col,
        (col : ℚ) * printableWidth, (row : ℚ) * printableHeight⟩ : TiledPage) ∈
          (generateTiledTemplate (some Canvas.mk) ⟨10, 10⟩).getD []) ∧
    (∀ p ∈ (generateTiledTemplate (some Canvas.mk) ⟨10, 10⟩).getD [],
      p.pageNum = (p.row : ℤ) * pagesX ⟨10, 10⟩ + (p.col : ℤ) + 1 ∧
        p.row < (pagesY ⟨10, 10⟩).toNat ∧ p.col < (pagesX ⟨10, 10⟩).toNat) ∧
    pagesX ⟨10, 10⟩ = 2 ∧ pagesY ⟨10, 10⟩ = 2 ∧
    ((generateTiledTemplate (some Canvas.mk) ⟨10, 10⟩).getD []).map TiledPage.pageNum =
      [1, 2, 3, 4] :=
  tiled_partition ⟨10, 10⟩ (by decide) (by decide)

/-- C2: the page count the UI displays before tiled printing does not
always match the page count the tiled generator produces: at dimensions
`(10, 8)` the UI banner computes `⌈12/7.5⌉ * ⌈10/9.5⌉ = 4` pages (its
formula divides the height by `9.5`), while the generator emits
`⌈12/7.5⌉ * ⌈10/10⌉ = 2` pages (printable height `10`). -/
theorem tiledPages_display_mismatch :
    tiledPages ⟨10, 8⟩ = 4 ∧
    pagesX ⟨10, 8⟩ * pagesY ⟨10, 8⟩ = 2 ∧
    ((generateTiledTemplate (some Canvas.mk) ⟨10, 8⟩).getD []).length = 2 ∧
    tiledPages ⟨10, 8⟩ ≠ pagesX ⟨10, 8⟩ * pagesY ⟨10, 8⟩ := by
  have hX : pagesX ⟨10, 8⟩ = 2 := by
    rw [pagesX_eq]
    exact ceil_12_div_75
  have hY : pagesY ⟨10, 8⟩ = 1 := by
    rw [pagesY_eq]
    exact ceil_10_div_10
  have hn : needsTiling ⟨10, 8⟩ = true := by
    unfold needsTiling
    simp only [Bool.or_eq_true, decide_eq_true_eq]
    left
    norm_num
  have hui : tiledPages ⟨10, 8⟩ = 4 := by
    unfold tiledPages
    rw [hn]
    show ⌈((10 : ℚ) + 2) / 7.5⌉ * ⌈((8 : ℚ) + 2) / 9.5⌉ = 4
    rw [ceil_12_div_75, ceil_10_div_95]
    decide
  refine ⟨hui, by rw [hX, hY]; decide, ?_, ?_⟩
  · rw [generateTiledTemplate_pos Canvas.mk ⟨10, 8⟩ (by decide) (by decide), hX, hY]
    decide
  · rw [hui, hX, hY]
    decide

/-- C7: the suggested download filename concatenates
`shadowboard-template-`, the raw numeric width, `x`, the raw numeric
height and `.png` — using the default number-to-string conversion, not
the 2-decimal display format — so dimensions `(5, 3)` give exactly
`shadowboard-template-5x3.png` (and not the `5.00`/`3.00` of the
display labels). -/
theorem download_filename (d : Dimensions) :
    (∀ c : Canvas, downloadTemplate (some c) d =
      some ("shadowboard-template-" ++ jsNumberToString d.width ++ "x" ++
        jsNumberToString d.height ++ ".png")) ∧
    downloadTemplate (some Canvas.mk) ⟨5, 3⟩ = some "shadowboard-template-5x3.png" ∧
    jsNumberToString (5 : ℚ) = "5" ∧
    toFixed2 (5 : ℚ) = "5.00" ∧
    jsNumberToString (5 : ℚ) ≠ toFixed2 (5 : ℚ) :=
  ⟨fun _ => rfl, rfl, rfl, rfl, by decide⟩

/-- C8: with a nonpositive width or height the preview canvas is not
mounted, so the grid render, the download, the single-page print and
the tiled print all abort with no output: `generateTemplate` and
`generateTiledTemplate` refuse by their own dimension guards for any
canvas, and `downloadTemplate` / `printTemplate` find no canvas. -/
theorem nonpositive_dims_suppressed (d : Dimensions)
    (h : d.width ≤ 0 ∨ d.height ≤ 0) :
    canvasRefCurrent d = none ∧
    (∀ c : Option Canvas, generateTemplate c d = none) ∧
    (∀ c : Option Canvas, generateTiledTemplate c d = none) ∧
    downloadTemplate (canvasRefCurrent d) d = none ∧
    printTemplate (canvasRefCurrent d) = none := by
  have hnot : ¬(0 < d.width ∧ 0 < d.height) := by
    rintro ⟨h1, h2⟩
    rcases h with h | h
    · exact absurd h h1.not_le
    · exact absurd h h2.not_le
  have hc : canvasRefCurrent d = none := by
    unfold canvasRefCurrent
    rw [if_neg hnot]
  have hguard : ∀ c : Option Canvas,
      c.isNone = true ∨ d.width ≤ 0 ∨ d.height ≤ 0 := by
    intro c
    rcases h with h | h
    · exact Or.inr (Or.inl h)
    · exact Or.inr (Or.inr h)
  refine ⟨hc, ?_, ?_, ?_, ?_⟩
  · intro c
    unfold generateTemplate
    rw [if_pos (hguard c)]
  · intro c
    unfold generateTiledTemplate
    rw [if_pos (hguard c)]
  · rw [hc]
    rfl
  · rw [hc]
    rfl

/-- C8 witness: the suppression theorem evaluated at dimensions
`(0, 5)`. -/
theorem nonpositive_dims_suppressed_witness :
    canvasRefCurrent ⟨0, 5⟩ = none ∧
    (∀ c : Option Canvas, generateTemplate c ⟨0, 5⟩ = none) ∧
    (∀ c : Option Canvas, generateTiledTemplate c ⟨0, 5⟩ = none) ∧
    downloadTemplate (canvasRefCurrent ⟨0, 5⟩) ⟨0, 5⟩ = none ∧
    printTemplate (canvasRefCurrent ⟨0, 5⟩) = none :=
  nonpositive_dims_suppressed ⟨0, 5⟩ (Or.inl (by decide))
